import Mathlib

/-!
Shallow embedding of the two Datadog agent checks of this repository:
`mysql_sys.py` (class `MySqlSys`) and `tcp_roundtrip_latency_check.py`
(class `TCPRoundtripLatencyCheck`).

Pure logic is translated directly from the Python source.  Interactions
with the outside world — the MySQL server's query results, the spawned
netperf process, the wall clock — are passed in as explicit model
parameters.  The source never performs arithmetic on the float values it
handles (they are only parsed from decimal text and forwarded to the
metric sink), so numeric metric values are modelled as rationals; string
scanning is modelled on `List Char` (`String.data`), matching Python's
per-character string operations.
-/

deriving instance DecidableEq for Except

namespace Checks

/-- Model of the Python exception values that cross function boundaries in
this repository.  Payloads are the exception messages (simplified where the
source interpolates runtime data no claim depends on). -/
inductive PyExn where
  | exn (msg : String)                 -- a plain `Exception(...)`
  | runtimeError (msg : String)        -- `RuntimeError(...)`
  | osError (msg : String)             -- `OSError` (what `Popen` raises on launch failure)
  | calledProcessError (msg : String)  -- `subprocess.CalledProcessError`
  | valueError (msg : String)          -- `ValueError` (failed unpack / numeric parse)
  | unboundLocalError (msg : String)   -- reading a local that was never assigned
  | tcpTimeout (msg : String)          -- `TCPRoundtripLatencyCheckTimeout`
  deriving DecidableEq, Repr

/-- Numeric value of a list of decimal digit characters (most significant
first); helper for the models of Python `int`, `float` and the regex digit
run. -/
def digitsVal (l : List Char) : Nat :=
  l.foldl (fun n c => n * 10 + (c.toNat - 48)) 0

/-- The whitespace characters Python's `str.strip()` removes. -/
def pySpace (c : Char) : Bool :=
  c == ' ' || c == '\t' || c == '\n' || c == '\x0d' || c == '\x0b' || c == '\x0c'

/-- Python `str.strip()`: drop whitespace from both ends. -/
def pyStrip (l : List Char) : List Char :=
  ((l.dropWhile pySpace).reverse.dropWhile pySpace).reverse

/-- Python `s.split(sep)` for a one-character separator: always returns at
least one (possibly empty) piece. -/
def pySplit (sep : Char) : List Char → List (List Char)
  | [] => [[]]
  | c :: cs =>
    let r := pySplit sep cs
    if c == sep then [] :: r
    else
      match r with
      | g :: gs => (c :: g) :: gs
      | [] => [[c]]

/-- Model of Python 2 `int(s)` on a `str`: optional surrounding whitespace,
an optional sign, then a nonempty run of decimal digits; anything else
raises `ValueError`, modelled as `none`. -/
def pyIntOfChars (l : List Char) : Option Int :=
  let t := pyStrip l
  let core : Int × List Char :=
    match t with
    | '-' :: rest => (-1, rest)
    | '+' :: rest => (1, rest)
    | rest => (1, rest)
  if core.2 ≠ [] ∧ core.2.all Char.isDigit then
    some (core.1 * (digitsVal core.2 : Int))
  else none

/-- Model of `re.match(r"([0-9]+)", s)` followed by `int(m.group(1))`: the
leading run of decimal digits of `s`; `none` when `s` does not start with a
digit, in which case `re.match` returns `None` and `.group(1)` raises
`AttributeError`. -/
def leadingDigitRun (l : List Char) : Option Nat :=
  let ds := l.takeWhile Char.isDigit
  if ds = [] then none else some (digitsVal ds)

/-- A metric sample as handed to the AgentCheck emission primitives
(`gauge` / `rate` / `histogram`). -/
structure Metric where
  name : String
  value : ℚ
  kind : String
  tags : List String
  deriving DecidableEq, Repr

namespace MySqlSys

/-- The metric-type constant `GAUGE` of `mysql_sys.py`. -/
def GAUGE : String := "gauge"

/-- The metric-type constant `RATE` of `mysql_sys.py`. -/
def RATE : String := "rate"

/-- `METRICS_MAP` of `mysql_sys.py`: status key ↦ (metric name, metric
type). -/
def METRICS_MAP : List (String × String × String) :=
  [("Ps_digest_95th_percentile_by_avg_us",
    "mysql.sys.query_exec_time_95th_per_us", GAUGE)]

/-- `MySqlSys._get_version`, applied to the scalar string returned by
`SELECT VERSION()` (the cursor plumbing is dropped): split on `-` to
discard any build suffix such as `-log`, then split the first piece on
`.`. -/
def get_version (s : String) : List (List Char) :=
  pySplit '.' ((pySplit '-' s.data).headD [])

/-- Python tuple comparison `(major, minor, patchlevel) > (5, 6, 5)`:
strict lexicographic greater-than on integer triples. -/
def tripleGT (x y : Int × Int × Int) : Bool :=
  decide (x.1 > y.1) ||
    (decide (x.1 = y.1) &&
      (decide (x.2.1 > y.2.1) ||
        (decide (x.2.1 = y.2.1) && decide (x.2.2 > y.2.2))))

/-- The parsing steps inside `MySqlSys._version_greater_565`:
`major = int(mysql_version[0])`, `minor = int(mysql_version[1])`,
`patchlevel = int(re.match(r"([0-9]+)", mysql_version[2]).group(1))`.
`none` models any exception raised along the way (missing list index,
non-numeric text, regex mismatch). -/
def parse_version_triple (s : String) : Option (Int × Int × Int) := do
  let v := get_version s
  let s0 ← v.get? 0
  let major ← pyIntOfChars s0
  let s1 ← v.get? 1
  let minor ← pyIntOfChars s1
  let s2 ← v.get? 2
  let patchlevel ← leadingDigitRun s2
  pure (major, minor, (patchlevel : Int))

/-- `MySqlSys._version_greater_565`.  The argument models the outcome of
the `SELECT VERSION()` round trip (`none`: the query or the fetch raised).
Result is `(greater_565, warned)`: every exception inside the `try` block
is caught, `self.warning` is called, and the initial `False` is
returned. -/
def version_greater_565 (versionResult : Option String) : Bool × Bool :=
  match versionResult with
  | none => (false, true)
  | some s =>
    match parse_version_triple s with
    | none => (false, true)
    | some t => (tripleGT t (5, 6, 5), false)

/-- The four connection strategies of `MySqlSys._connect`. -/
inductive ConnStrategy where
  | defaultsFile
  | unixSocket
  | hostPort
  | hostOnly
  deriving DecidableEq, Repr

/-- Branch selection in `MySqlSys._connect`: `if defaults_file != ''` /
`elif mysql_sock != ''` / `elif port:` / `else`.  The remaining arguments
of `_connect` (host, user, password) do not influence the selection. -/
def connect_strategy (port : Int) (mysql_sock defaults_file : String) :
    ConnStrategy :=
  if defaults_file ≠ "" then .defaultsFile
  else if mysql_sock ≠ "" then .unixSocket
  else if port ≠ 0 then .hostPort
  else .hostOnly

/-- `MySqlSys._collect_scalar` (via `_collect_type` with `float`): `None`
when the key is missing; the `float(...)` conversion is the identity on the
rational model. -/
def collect_scalar (key : String) (dbResults : List (String × ℚ)) :
    Option ℚ :=
  (dbResults.find? (fun kv => kv.1 == key)).map (fun kv => kv.2)

/-- `MySqlSys._rate_or_gauge_statuses`: for each entry of the statuses map
whose value is present in `dbResults`, emit one rate or gauge sample. -/
def rate_or_gauge_statuses (statuses : List (String × String × String))
    (dbResults : List (String × ℚ)) (tags : List String) : List Metric :=
  statuses.foldr
    (fun st acc =>
      match collect_scalar st.1 dbResults with
      | none => acc
      | some v =>
        if st.2.2 = RATE then ⟨st.2.1, v, RATE, tags⟩ :: acc
        else if st.2.2 = GAUGE then ⟨st.2.1, v, GAUGE, tags⟩ :: acc
        else acc)
    []

/-- `MySqlSys._get_query_exec_time_95th_per_us`: the argument lists the
first column of each row returned by
`select * from x$ps_digest_95th_percentile_by_avg_us`; a rowcount other
than exactly 1 raises, otherwise the single row's first column is
returned. -/
def get_query_exec_time_95th_per_us (rows : List ℚ) : Except String ℚ :=
  match rows with
  | [v] => .ok v
  | _ => .error "Failed to fetch record from the table x$ps_digest_95th_percentile_by_avg_us"

/-- `MySqlSys._collect_metrics`: fetch the percentile value under the
`Ps_digest_95th_percentile_by_avg_us` key and run the resulting one-entry
dict through `_rate_or_gauge_statuses` with `METRICS_MAP`. -/
def collect_metrics (percentileRows : List ℚ) (tags : List String) :
    Except String (List Metric) :=
  match get_query_exec_time_95th_per_us percentileRows with
  | .error e => .error e
  | .ok v =>
    .ok (rate_or_gauge_statuses METRICS_MAP
      [("Ps_digest_95th_percentile_by_avg_us", v)] tags)

/-- `MySqlSys._is_mysql_sys_schema_installed`: the argument is the rowcount
of `select sys_version from version`; installed iff it is positive. -/
def is_mysql_sys_schema_installed (rowcount : Nat) : Bool :=
  decide (rowcount > 0)

/-- Observable behaviour of the MySQL server during one invocation. -/
structure DbModel where
  versionResult : Option String
  sysVersionRowcount : Nat
  percentileRows : List ℚ
  deriving DecidableEq, Repr

/-- Typed form of what `MySqlSys._get_config` extracts from the instance
dictionary. -/
structure Config where
  host : String
  user : String
  port : Int
  password : String
  mysql_sock : String
  defaults_file : String
  tags : List String
  deriving DecidableEq, Repr

/-- Outcome of one `MySqlSys.check` invocation: the message of the
propagated exception (if any), the emitted metrics, whether
`self.warning` was called, and the connection strategy used (`none` when
the check failed before `_connect`). -/
structure CheckResult where
  raised : Option String
  metrics : List Metric
  warned : Bool
  strategy : Option ConnStrategy
  deriving DecidableEq, Repr

/-- Exception message of the config gate in `MySqlSys.check`. -/
def hostUserMsg : String := "Mysql host and user are needed."

/-- Exception message of the version gate in `MySqlSys.check`. -/
def versionMsg : String := "MySQL version >= 5.6.5 is required."

/-- Exception message of the schema gate in `MySqlSys.check`. -/
def sysMsg : String :=
  "The mysql_sys utility is not installed. Please visit https://github.com/MarkLeith/mysql-sys for installation instructions"

/-- `MySqlSys.check`: config gate, connect, version gate, schema gate,
metric collection.  (`_version_greater_565` and `_connect` are called once
in the source; repeating the pure calls here is equivalent.) -/
def check (cfg : Config) (db : DbModel) : CheckResult :=
  if (cfg.host = "" ∨ cfg.user = "") ∧ cfg.defaults_file = "" then
    ⟨some hostUserMsg, [], false, none⟩
  else if !(version_greater_565 db.versionResult).1 then
    ⟨some versionMsg, [], (version_greater_565 db.versionResult).2,
      some (connect_strategy cfg.port cfg.mysql_sock cfg.defaults_file)⟩
  else if !is_mysql_sys_schema_installed db.sysVersionRowcount then
    ⟨some sysMsg, [], (version_greater_565 db.versionResult).2,
      some (connect_strategy cfg.port cfg.mysql_sock cfg.defaults_file)⟩
  else
    match collect_metrics db.percentileRows cfg.tags with
    | .error e =>
      ⟨some e, [], (version_greater_565 db.versionResult).2,
        some (connect_strategy cfg.port cfg.mysql_sock cfg.defaults_file)⟩
    | .ok ms =>
      ⟨none, ms, (version_greater_565 db.versionResult).2,
        some (connect_strategy cfg.port cfg.mysql_sock cfg.defaults_file)⟩

end MySqlSys

namespace TCPRoundtripLatencyCheck

/-- A spawned child process, as observed through `process.poll()` and
`process.stdout.read()`: `exitsAt = some k` means `poll()` reports an exit
status from the k-th iteration of the wait loop on; `none` means the
process never exits by itself. -/
structure ChildProc where
  exitsAt : Option Nat
  output : String
  deriving DecidableEq, Repr

/-- Whether `process.poll()` reports an exit at wait-loop iteration `i`. -/
def polled_exited (p : ChildProc) (i : Nat) : Bool :=
  match p.exitsAt with
  | none => false
  | some k => decide (k ≤ i)

/-- The exception classes `subprocess.Popen` can raise.  Per the Python
library, a launch failure (e.g. a missing binary) raises `OSError` and
invalid arguments raise `ValueError`; `CalledProcessError` is included
here only because the source's handler names it — `Popen` itself never
raises it (it is raised by `check_call`/`check_output`). -/
inductive SpawnExn where
  | osError (msg : String)
  | calledProcessError (msg : String)
  | valueError (msg : String)
  deriving DecidableEq, Repr

/-- Embed a spawn exception into the general exception model. -/
def SpawnExn.toPyExn : SpawnExn → PyExn
  | .osError msg => .osError msg
  | .calledProcessError msg => .calledProcessError msg
  | .valueError msg => .valueError msg

/-- Outcome of the `subprocess.Popen` call: a process handle, or the
exception `Popen` raised. -/
inductive SpawnOutcome where
  | ok (child : ChildProc)
  | fail (e : SpawnExn)
  deriving DecidableEq, Repr

/-- Observable side effects of the wait loop of `_timeout_command`, in
program order. -/
inductive Ev where
  | sleep          -- time.sleep(0.1)
  | kill           -- os.kill(process.pid, signal.SIGKILL)
  | reap           -- os.waitpid(-1, os.WNOHANG)
  | raiseTimeout   -- raise TCPRoundtripLatencyCheckTimeout(...)
  deriving DecidableEq, Repr

/-- Message of the timeout exception raised by `_timeout_command` (the
source interpolates the command line and the timeout; no claim depends on
the interpolation). -/
def timeoutMsg : String := "The command timed out"

/-- The `while process.poll() is None:` loop of
`TCPRoundtripLatencyCheck._timeout_command`: poll; if still running, sleep
0.1s, take the wall clock, and if the elapsed seconds exceed the timeout,
kill the process, reap with `waitpid`, and raise the timeout exception.
`elapsed i` is the integer `(now - start).seconds` observed at iteration
`i` after its sleep; `fuel` bounds how many iterations the model unrolls
(result `none`: the loop is still running after `fuel` iterations). -/
def wait_loop (p : ChildProc) (elapsed : Nat → Int) (timeout : ℚ) :
    Nat → Nat → List Ev × Option (Except PyExn String)
  | 0, _ => ([], none)
  | fuel + 1, i =>
    if polled_exited p i then
      ([], some (.ok p.output))
    else if ((elapsed i : ℚ) > timeout : Prop) then
      ([.sleep, .kill, .reap, .raiseTimeout],
        some (.error (.tcpTimeout timeoutMsg)))
    else
      let r := wait_loop p elapsed timeout fuel (i + 1)
      (.sleep :: r.1, r.2)

/-- `TCPRoundtripLatencyCheck._timeout_command`.  The
`except subprocess.CalledProcessError` clause around `Popen` is translated
verbatim: only that exception class is re-raised as `RuntimeError`; any
other exception raised by `Popen` propagates unchanged.  (Per the Python
library, `Popen` itself signals a launch failure with `OSError`, never
with `CalledProcessError`.) -/
def timeout_command (spawn : SpawnOutcome) (elapsed : Nat → Int)
    (timeout : ℚ) (fuel : Nat) : List Ev × Option (Except PyExn String) :=
  match spawn with
  | .fail e =>
    match e with
    | .calledProcessError msg =>
      ([], some (.error (.runtimeError ("Command failed. " ++ msg))))
    | _ => ([], some (.error e.toPyExn))
  | .ok p => wait_loop p elapsed timeout fuel 0

/-- Events this check emits (`timeout_event` / `error_event`).  The
timestamp and the md5-derived aggregation key are dropped from the model;
the host the key is derived from is kept. -/
inductive LatEvent where
  | timeoutEvent (host : String) (timeout : ℚ)
  | errorEvent (host : String) (msg : String)
  deriving DecidableEq, Repr

/-- Model of `csv.reader([res])` on the unquoted output the netperf
contract produces: newline-separated records of comma-separated fields;
an empty record yields no row. -/
def csv_rows (s : String) : List (List (List Char)) :=
  ((pySplit '\n' s.data).filter (fun l => l ≠ [])).map (pySplit ',')

/-- The `for protocol, rt_latency, p90_latency, p99_latency in
csv.reader([res]):` loop of `_collect_metrics` together with the read of
`rt_latency` after it: every row must unpack into exactly 4 fields
(otherwise `ValueError`); after the loop the variables hold the fields of
the last row, and reading them raises `UnboundLocalError` when there was
no row at all. -/
def unpack_rows :
    List (List (List Char)) → Option (List Char × List Char × List Char × List Char) →
    Except PyExn (List Char × List Char × List Char × List Char)
  | [], none =>
    .error (.unboundLocalError "local variable referenced before assignment")
  | [], some r => .ok r
  | row :: rest, _ =>
    match row with
    | [a, b, c, d] => unpack_rows rest (some (a, b, c, d))
    | _ => .error (.valueError "unpack")

/-- Model of Python `float(s)` on the plain decimal literals the netperf
contract produces: optional surrounding whitespace, an optional sign, then
digits with at most one decimal point (exponent and inf/nan forms are
outside the model's domain); `none` models `ValueError`. -/
def pyFloatOfChars (l : List Char) : Option ℚ :=
  let t := pyStrip l
  let core : Int × List Char :=
    match t with
    | '-' :: rest => (-1, rest)
    | '+' :: rest => (1, rest)
    | rest => (1, rest)
  match pySplit '.' core.2 with
  | [ip] =>
    if ip ≠ [] ∧ ip.all Char.isDigit then
      some (mkRat (core.1 * (digitsVal ip : Int)) 1)
    else none
  | [ip, fp] =>
    if (ip ≠ [] ∨ fp ≠ []) ∧ ip.all Char.isDigit ∧ fp.all Char.isDigit then
      some (mkRat (core.1 * (digitsVal (ip ++ fp) : Int)) (10 ^ fp.length))
    else none
  | _ => none

/-- Typed form of what `TCPRoundtripLatencyCheck._get_config` extracts
from the instance dictionary. -/
structure Config where
  host : String
  port : Int
  tcp_request_size_bytes : Int
  tcp_response_size_bytes : Int
  timeout : ℚ
  tags : List String
  deriving DecidableEq, Repr

/-- Environment of one invocation: the outcome of the `Popen` call, the
observed clock of the wait loop, and the model's unrolling bound. -/
structure World where
  spawn : SpawnOutcome
  elapsed : Nat → Int
  fuel : Nat

/-- Outcome of one `TCPRoundtripLatencyCheck.check` invocation: the
propagated exception (if any), the emitted events and metrics, and whether
`Popen` was invoked. -/
structure CheckResult where
  raised : Option PyExn
  events : List LatEvent
  metrics : List Metric
  spawned : Bool
  deriving DecidableEq, Repr

/-- Exception message of the config gate in
`TCPRoundtripLatencyCheck.check`. -/
def configMsg : String := "Netperf server host is needed."

/-- `TCPRoundtripLatencyCheck._collect_metrics`: run the command under the
timeout; `except RuntimeError` emits an error event and returns, `except
TCPRoundtripLatencyCheckTimeout` emits a timeout event and returns, any
other exception propagates; on success, decode the CSV output and emit the
round-trip latency histogram.  Result `none`: the wait loop is still
running after the model's fuel. -/
def collect_metrics (host : String) (timeout : ℚ) (tags : List String)
    (w : World) : Option (Option PyExn × List LatEvent × List Metric) :=
  match (timeout_command w.spawn w.elapsed timeout w.fuel).2 with
  | none => none
  | some (.error e) =>
    match e with
    | .runtimeError msg => some (none, [.errorEvent host msg], [])
    | .tcpTimeout _ => some (none, [.timeoutEvent host timeout], [])
    | _ => some (some e, [], [])
  | some (.ok out) =>
    match unpack_rows (csv_rows out) none with
    | .error e => some (some e, [], [])
    | .ok (_, rt, _, _) =>
      match pyFloatOfChars rt with
      | none => some (some (.valueError "could not convert string to float"), [], [])
      | some v => some (none, [], [⟨"mysql.net.tcp_rt_latency", v, "histogram", tags⟩])

/-- `TCPRoundtripLatencyCheck.check`: the config gate, then metric
collection. -/
def check (cfg : Config) (w : World) : Option CheckResult :=
  if cfg.host = "" ∨ cfg.port = 0 ∨ cfg.tcp_request_size_bytes = 0 ∨
      cfg.tcp_response_size_bytes = 0 then
    some ⟨some (.exn configMsg), [], [], false⟩
  else
    match collect_metrics cfg.host cfg.timeout cfg.tags w with
    | none => none
    | some (r, evs, ms) => some ⟨r, evs, ms, true⟩

end TCPRoundtripLatencyCheck

end Checks

namespace Checks.MySqlSys

/-- Helper: `_rate_or_gauge_statuses` on the one-entry `METRICS_MAP` and a
result dict holding the percentile value emits exactly the one gauge. -/
theorem rate_or_gauge_singleton (v : ℚ) (tags : List String) :
    rate_or_gauge_statuses METRICS_MAP
        [("Ps_digest_95th_percentile_by_avg_us", v)] tags
      = [⟨"mysql.sys.query_exec_time_95th_per_us", v, GAUGE, tags⟩] := by
  simp [rate_or_gauge_statuses, METRICS_MAP, collect_scalar, GAUGE, RATE]

/-- Helper: the only error `_collect_metrics` can raise is the fixed
data-shape message of `_get_query_exec_time_95th_per_us`. -/
theorem collect_metrics_error_msg (rows : List ℚ) (tags : List String)
    (e : String) (h : collect_metrics rows tags = .error e) :
    e = "Failed to fetch record from the table x$ps_digest_95th_percentile_by_avg_us" := by
  rcases rows with _ | ⟨a, _ | ⟨b, l⟩⟩ <;>
    simp [collect_metrics, get_query_exec_time_95th_per_us] at h <;>
    exact h.symm

/-- C1: for every MySQL server version string, the eligibility gate
`_version_greater_565` passes exactly when the parsed
(major, minor, patch) integer triple is lexicographically strictly greater
than (5, 6, 5); of "5.6.6", "5.6.5", "5.6.4" and "5.0.51a-log" only
"5.6.6" is eligible, and the patch segment "51a" parses to 51 by taking
its leading digit run. -/
theorem version_gate_lex_565 :
    (∀ s : String, (version_greater_565 (some s)).1 = true ↔
      ∃ t, parse_version_triple s = some t ∧ tripleGT t (5, 6, 5) = true) ∧
    (∀ a b c : Int, tripleGT (a, b, c) (5, 6, 5) = true ↔
      (a > 5 ∨ (a = 5 ∧ (b > 6 ∨ (b = 6 ∧ c > 5))))) ∧
    (version_greater_565 (some "5.6.6")).1 = true ∧
    (version_greater_565 (some "5.6.5")).1 = false ∧
    (version_greater_565 (some "5.6.4")).1 = false ∧
    (version_greater_565 (some "5.0.51a-log")).1 = false ∧
    parse_version_triple "5.0.51a-log" = some (5, 0, 51) ∧
    leadingDigitRun "51a".data = some 51 := by
  refine ⟨?_, ?_, by decide, by decide, by decide, by decide, by decide,
    by decide⟩
  · intro s
    cases h : parse_version_triple s with
    | none => simp [version_greater_565, h]
    | some t => simp [version_greater_565, h]
  · intro a b c
    simp only [tripleGT, Bool.or_eq_true, Bool.and_eq_true,
      decide_eq_true_eq]

/-- C5: once an invocation reaches metric collection, a percentile-query
rowcount other than 1 aborts with the data-shape error and emits no
metric; exactly one row emits the gauge
`mysql.sys.query_exec_time_95th_per_us` carrying that row's value, tagged
with the instance's configured tags. -/
theorem percentile_rowcount_gate (cfg : Config) (db : DbModel)
    (hcfg : ¬ ((cfg.host = "" ∨ cfg.user = "") ∧ cfg.defaults_file = ""))
    (hver : version_greater_565 db.versionResult = (true, false))
    (hsys : 0 < db.sysVersionRowcount) :
    (db.percentileRows.length ≠ 1 →
      check cfg db =
        ⟨some "Failed to fetch record from the table x$ps_digest_95th_percentile_by_avg_us",
          [], false,
          some (connect_strategy cfg.port cfg.mysql_sock cfg.defaults_file)⟩) ∧
    (∀ v : ℚ, db.percentileRows = [v] →
      check cfg db =
        ⟨none, [⟨"mysql.sys.query_exec_time_95th_per_us", v, "gauge", cfg.tags⟩],
          false,
          some (connect_strategy cfg.port cfg.mysql_sock cfg.defaults_file)⟩) := by
  have hii : is_mysql_sys_schema_installed db.sysVersionRowcount = true := by
    simp [is_mysql_sys_schema_installed]
    omega
  constructor
  · intro hlen
    have hcm : collect_metrics db.percentileRows cfg.tags =
        .error "Failed to fetch record from the table x$ps_digest_95th_percentile_by_avg_us" := by
      unfold collect_metrics get_query_exec_time_95th_per_us
      rcases hr : db.percentileRows with _ | ⟨a, _ | ⟨b, l⟩⟩
      · rfl
      · exact absurd (by rw [hr]; rfl) hlen
      · rfl
    simp [check, hcfg, hver, hii, hcm]
  · intro v hv
    have hcm : collect_metrics db.percentileRows cfg.tags =
        .ok [⟨"mysql.sys.query_exec_time_95th_per_us", v, GAUGE, cfg.tags⟩] := by
      rw [hv]
      unfold collect_metrics get_query_exec_time_95th_per_us
      simp [rate_or_gauge_singleton]
    simp [check, hcfg, hver, hii, hcm, GAUGE]

/-- C6: whenever version parsing fails — the version query itself raised,
or the reported text does not parse — the gate returns not-eligible and
records a warning instead of propagating the exception, and the check
aborts with the same version-floor message a genuinely old server
produces. -/
theorem version_parse_failure_degrades (q : Option String)
    (h : q = none ∨ ∃ s, q = some s ∧ parse_version_triple s = none) :
    version_greater_565 q = (false, true) ∧
    (∀ (cfg : Config) (db : DbModel), db.versionResult = q →
      ¬ ((cfg.host = "" ∨ cfg.user = "") ∧ cfg.defaults_file = "") →
      check cfg db = ⟨some versionMsg, [], true,
        some (connect_strategy cfg.port cfg.mysql_sock cfg.defaults_file)⟩ ∧
      (check cfg { db with versionResult := some "5.6.5" }).raised
        = some versionMsg) := by
  have hq : version_greater_565 q = (false, true) := by
    rcases h with h | ⟨s, hs, hp⟩
    · rw [h]; rfl
    · rw [hs]; simp [version_greater_565, hp]
  refine ⟨hq, ?_⟩
  intro cfg db hdb hcfg
  have hold : version_greater_565 (some "5.6.5") = (false, false) := by decide
  constructor
  · simp [check, hcfg, hdb, hq]
  · simp [check, hcfg, hold]

/-- C7: `_connect` selects exactly one of the four connection strategies,
with precedence defaults-file > unix-socket > host+port > host-only, keyed
on non-empty defaults-file path, non-empty socket path, and non-zero
port. -/
theorem connect_strategy_precedence (port : Int)
    (mysql_sock defaults_file : String) :
    (connect_strategy port mysql_sock defaults_file = .defaultsFile ↔
      defaults_file ≠ "") ∧
    (connect_strategy port mysql_sock defaults_file = .unixSocket ↔
      defaults_file = "" ∧ mysql_sock ≠ "") ∧
    (connect_strategy port mysql_sock defaults_file = .hostPort ↔
      defaults_file = "" ∧ mysql_sock = "" ∧ port ≠ 0) ∧
    (connect_strategy port mysql_sock defaults_file = .hostOnly ↔
      defaults_file = "" ∧ mysql_sock = "" ∧ port = 0) := by
  unfold connect_strategy
  split_ifs with h1 h2 h3 <;> simp_all

/-- C9: past the version gate, a zero rowcount from the sys-schema
presence query aborts the invocation with the eligibility message carrying
the installation pointer, and a positive rowcount hands the invocation to
metric collection; that abort happens only in the zero-row case. -/
theorem sys_schema_presence_gate (cfg : Config) (db : DbModel)
    (hcfg : ¬ ((cfg.host = "" ∨ cfg.user = "") ∧ cfg.defaults_file = ""))
    (hver : version_greater_565 db.versionResult = (true, false)) :
    (db.sysVersionRowcount = 0 →
      check cfg db = ⟨some sysMsg, [], false,
        some (connect_strategy cfg.port cfg.mysql_sock cfg.defaults_file)⟩) ∧
    (0 < db.sysVersionRowcount →
      (check cfg db).raised ≠ some sysMsg ∧
      check cfg db =
        (match collect_metrics db.percentileRows cfg.tags with
          | .error e => ⟨some e, [], false,
              some (connect_strategy cfg.port cfg.mysql_sock cfg.defaults_file)⟩
          | .ok ms => ⟨none, ms, false,
              some (connect_strategy cfg.port cfg.mysql_sock cfg.defaults_file)⟩)) := by
  constructor
  · intro h0
    simp [check, hcfg, hver, is_mysql_sys_schema_installed, h0]
  · intro hpos
    have hii : is_mysql_sys_schema_installed db.sysVersionRowcount = true := by
      simp [is_mysql_sys_schema_installed]
      omega
    refine ⟨?_, ?_⟩
    · cases hcm : collect_metrics db.percentileRows cfg.tags with
      | error e =>
        have he := collect_metrics_error_msg _ _ _ hcm
        subst he
        simp [check, hcfg, hver, hii, hcm, sysMsg]
      | ok ms =>
        simp [check, hcfg, hver, hii, hcm]
    · cases hcm : collect_metrics db.percentileRows cfg.tags <;>
        simp [check, hcfg, hver, hii, hcm]

/-- C5 witness: one percentile row with value 123.45 emits the gauge with
value 123.45. -/
theorem percentile_rowcount_gate_witness :
    check ⟨"localhost", "root", 3306, "", "", "", ["env:prod"]⟩
        ⟨some "5.7.10", 1, [123.45]⟩
      = ⟨none,
          [⟨"mysql.sys.query_exec_time_95th_per_us", 123.45, "gauge", ["env:prod"]⟩],
          false, some (connect_strategy 3306 "" "")⟩ :=
  (percentile_rowcount_gate ⟨"localhost", "root", 3306, "", "", "", ["env:prod"]⟩
    ⟨some "5.7.10", 1, [123.45]⟩ (by decide) (by decide) (by decide)).2 123.45 rfl

/-- C6 witness: an unparsable version string degrades to the same
version-floor abort as an old server, with a warning recorded. -/
theorem version_parse_failure_degrades_witness :
    check ⟨"h", "u", 3306, "p", "", "", []⟩ ⟨some "MariaDB", 1, [1]⟩
      = ⟨some versionMsg, [], true, some (connect_strategy 3306 "" "")⟩ ∧
    (check ⟨"h", "u", 3306, "p", "", "", []⟩ ⟨some "5.6.5", 1, [1]⟩).raised
      = some versionMsg :=
  (version_parse_failure_degrades (some "MariaDB")
    (Or.inr ⟨"MariaDB", rfl, by decide⟩)).2
    ⟨"h", "u", 3306, "p", "", "", []⟩ ⟨some "MariaDB", 1, [1]⟩ rfl (by decide)

/-- C9 witness: zero rows from the sys-schema presence query abort with
the installation-pointer message. -/
theorem sys_schema_presence_gate_witness :
    check ⟨"localhost", "root", 3306, "", "", "", []⟩ ⟨some "5.7.10", 0, [1]⟩
      = ⟨some sysMsg, [], false, some (connect_strategy 3306 "" "")⟩ :=
  (sys_schema_presence_gate ⟨"localhost", "root", 3306, "", "", "", []⟩
    ⟨some "5.7.10", 0, [1]⟩ (by decide) (by decide)).1 rfl

end Checks.MySqlSys

namespace Checks.TCPRoundtripLatencyCheck

/-- Helper: induction over the wait loop — whenever it signals the
timeout, its side-effect trace ends with sleep, kill, reap, raise, and no
kill, reap or raise occurs earlier. -/
theorem wait_loop_timeout_trace (p : ChildProc) (elapsed : Nat → Int)
    (timeout : ℚ) (fuel i : Nat)
    (h : (wait_loop p elapsed timeout fuel i).2
      = some (.error (.tcpTimeout timeoutMsg))) :
    ∃ pre, (wait_loop p elapsed timeout fuel i).1
        = pre ++ [.sleep, .kill, .reap, .raiseTimeout] ∧
      Ev.kill ∉ pre ∧ Ev.reap ∉ pre ∧ Ev.raiseTimeout ∉ pre := by
  induction fuel generalizing i with
  | zero => simp [wait_loop] at h
  | succ n ih =>
    by_cases hp : polled_exited p i
    · simp [wait_loop, hp] at h
    · by_cases ht : ((elapsed i : ℚ) > timeout)
      · refine ⟨[], ?_, by simp, by simp, by simp⟩
        simp [wait_loop, hp, ht]
      · have h' : (wait_loop p elapsed timeout n (i + 1)).2
            = some (.error (.tcpTimeout timeoutMsg)) := by
          simpa [wait_loop, hp, ht] using h
        obtain ⟨pre, h1, h2, h3, h4⟩ := ih (i + 1) h'
        refine ⟨.sleep :: pre, ?_, by simp [h2], by simp [h3], by simp [h4]⟩
        simp [wait_loop, hp, ht, h1]

/-- Helper: the only exception the wait loop can signal is the timeout
exception. -/
theorem wait_loop_error_tcp (p : ChildProc) (elapsed : Nat → Int)
    (timeout : ℚ) (fuel i : Nat) (e : PyExn)
    (h : (wait_loop p elapsed timeout fuel i).2 = some (.error e)) :
    e = .tcpTimeout timeoutMsg := by
  induction fuel generalizing i with
  | zero => simp [wait_loop] at h
  | succ n ih =>
    by_cases hp : polled_exited p i
    · simp [wait_loop, hp] at h
    · by_cases ht : ((elapsed i : ℚ) > timeout)
      · have := h
        simp [wait_loop, hp, ht] at this
        exact this.symm
      · exact ih (i + 1) (by simpa [wait_loop, hp, ht] using h)

/-- Helper: every exception `_timeout_command` lets escape is a
RuntimeError, an OSError, a ValueError or the timeout exception. -/
theorem timeout_command_error_shape (spawn : SpawnOutcome)
    (elapsed : Nat → Int) (timeout : ℚ) (fuel : Nat) (e : PyExn)
    (h : (timeout_command spawn elapsed timeout fuel).2 = some (.error e)) :
    (∃ m, e = .runtimeError m) ∨ (∃ m, e = .osError m) ∨
      (∃ m, e = .valueError m) ∨ e = .tcpTimeout timeoutMsg := by
  cases spawn with
  | fail ex =>
    cases ex with
    | osError m =>
      simp [timeout_command, SpawnExn.toPyExn] at h
      exact Or.inr (Or.inl ⟨m, h.symm⟩)
    | calledProcessError m =>
      simp [timeout_command, SpawnExn.toPyExn] at h
      exact Or.inl ⟨"Command failed. " ++ m, h.symm⟩
    | valueError m =>
      simp [timeout_command, SpawnExn.toPyExn] at h
      exact Or.inr (Or.inr (Or.inl ⟨m, h.symm⟩))
  | ok p =>
    exact Or.inr (Or.inr (Or.inr
      (wait_loop_error_tcp p elapsed timeout fuel 0 e
        (by simpa [timeout_command] using h))))

/-- Helper: each unpack failure of the CSV loop is either the
unbound-local error (no row) or the unpack ValueError (wrong field
count). -/
theorem unpack_rows_error_shape (rows : List (List (List Char)))
    (acc : Option (List Char × List Char × List Char × List Char))
    (e : PyExn) (h : unpack_rows rows acc = .error e) :
    e = .unboundLocalError "local variable referenced before assignment" ∨
      e = .valueError "unpack" := by
  induction rows generalizing acc with
  | nil =>
    cases acc with
    | none =>
      simp only [unpack_rows] at h
      injection h with h1
      exact Or.inl h1.symm
    | some r => simp [unpack_rows] at h
  | cons row rest ih =>
    rcases row with _ | ⟨a, _ | ⟨b, _ | ⟨c, _ | ⟨d, _ | ⟨x, l⟩⟩⟩⟩⟩
    · simp only [unpack_rows] at h
      injection h with h1
      exact Or.inr h1.symm
    · simp only [unpack_rows] at h
      injection h with h1
      exact Or.inr h1.symm
    · simp only [unpack_rows] at h
      injection h with h1
      exact Or.inr h1.symm
    · simp only [unpack_rows] at h
      injection h with h1
      exact Or.inr h1.symm
    · exact ih (some (a, b, c, d)) (by simpa [unpack_rows] using h)
    · simp only [unpack_rows] at h
      injection h with h1
      exact Or.inr h1.symm

/-- Helper: `_collect_metrics` never raises the config-gate exception:
whatever the environment does, its propagated exception is a spawn
OSError/ValueError, a CSV unpack error, or the float-conversion
ValueError. -/
theorem collect_metrics_no_config_exn (host : String) (timeout : ℚ)
    (tags : List String) (w : World)
    (x : Option PyExn × List LatEvent × List Metric)
    (h : collect_metrics host timeout tags w = some x) (s : String) :
    x.1 ≠ some (.exn s) := by
  unfold collect_metrics at h
  cases htc : (timeout_command w.spawn w.elapsed timeout w.fuel).2 with
  | none =>
    rw [htc] at h
    simp at h
  | some res =>
    rw [htc] at h
    cases res with
    | error err =>
      have hsh := timeout_command_error_shape w.spawn w.elapsed timeout w.fuel err htc
      rcases hsh with ⟨m, rfl⟩ | ⟨m, rfl⟩ | ⟨m, rfl⟩ | rfl <;>
        simp at h <;> subst h <;> simp
    | ok out =>
      cases hup : unpack_rows (csv_rows out) none with
      | error perr =>
        rcases unpack_rows_error_shape _ _ _ hup with rfl | rfl <;>
          simp [hup] at h <;> subst h <;> simp
      | ok tup =>
        obtain ⟨p1, rt, p3, p4⟩ := tup
        cases hpf : pyFloatOfChars rt with
        | none =>
          simp [hup, hpf] at h
          subst h
          simp
        | some v =>
          simp [hup, hpf] at h
          subst h
          simp

/-- C2: whenever `_timeout_command` signals the timeout condition, its
side-effect trace ends with the kill, the reap and the raise in that
order, with no kill, reap or timeout-raise anywhere earlier: the child is
forcibly killed and reaped before the timeout exception is raised, and
the timeout is never signaled with the child unkilled or unreaped. -/
theorem timeout_kill_reap_before_raise (spawn : SpawnOutcome)
    (elapsed : Nat → Int) (timeout : ℚ) (fuel : Nat)
    (h : (timeout_command spawn elapsed timeout fuel).2
      = some (.error (.tcpTimeout timeoutMsg))) :
    ∃ pre, (timeout_command spawn elapsed timeout fuel).1
        = pre ++ [.sleep, .kill, .reap, .raiseTimeout] ∧
      Ev.kill ∉ pre ∧ Ev.reap ∉ pre ∧ Ev.raiseTimeout ∉ pre := by
  cases spawn with
  | fail ex => cases ex <;> simp [timeout_command, SpawnExn.toPyExn] at h
  | ok p =>
    simp only [timeout_command] at h ⊢
    exact wait_loop_timeout_trace p elapsed timeout fuel 0 h

/-- C2 witness: a child that never exits, a clock that reaches 2 seconds
with a 1-second timeout. -/
theorem timeout_kill_reap_before_raise_witness :
    (timeout_command (.ok ⟨none, ""⟩) (fun i => (i : Int) + 1) 1 5).2
      = some (.error (.tcpTimeout timeoutMsg)) ∧
    ∃ pre, (timeout_command (.ok ⟨none, ""⟩) (fun i => (i : Int) + 1) 1 5).1
        = pre ++ [.sleep, .kill, .reap, .raiseTimeout] ∧
      Ev.kill ∉ pre ∧ Ev.reap ∉ pre ∧ Ev.raiseTimeout ∉ pre :=
  ⟨by decide, timeout_kill_reap_before_raise _ _ _ _ (by decide)⟩

/-- C3 (divergence exhibit): with a valid configuration, a spawn failure
— `Popen` raising `OSError`, as it does when the external binary cannot
be launched — propagates out of `check` with no event and no metric,
because the source's `except subprocess.CalledProcessError` handler
around `Popen` can never match; only a `CalledProcessError` (which
`Popen` never raises) would be converted into the error event.  A timeout
is converted into the timeout event as claimed, and an abnormal
pre-output exit (empty stdout) propagates an unhandled parse exception
instead of producing an event. -/
theorem spawn_failure_oserror_propagates :
    check ⟨"dbhost", 12865, 512, 256, 5, ["t"]⟩
        ⟨.fail (.osError "[Errno 2] No such file or directory"),
          fun i => (i : Int), 5⟩
      = some ⟨some (.osError "[Errno 2] No such file or directory"),
          [], [], true⟩ ∧
    check ⟨"dbhost", 12865, 512, 256, 5, ["t"]⟩
        ⟨.fail (.calledProcessError "returncode 1"), fun i => (i : Int), 5⟩
      = some ⟨none, [.errorEvent "dbhost" "Command failed. returncode 1"],
          [], true⟩ ∧
    check ⟨"dbhost", 12865, 512, 256, 5, ["t"]⟩
        ⟨.ok ⟨none, ""⟩, fun i => (i : Int) + 1, 10⟩
      = some ⟨none, [.timeoutEvent "dbhost" 5], [], true⟩ ∧
    check ⟨"dbhost", 12865, 512, 256, 5, ["t"]⟩
        ⟨.ok ⟨some 0, ""⟩, fun i => (i : Int), 5⟩
      = some ⟨some (.unboundLocalError "local variable referenced before assignment"),
          [], [], true⟩ :=
  ⟨by decide, by decide, by decide, by decide⟩

/-- C4: when the external command completes before the deadline printing
exactly `TCP,667.240,785,970`, the check emits exactly one histogram
sample `mysql.net.tcp_rt_latency` with value 667.240, tagged with the
instance's configured tags, and no event; the 90th/99th-percentile fields
are unpacked but not emitted. -/
theorem completed_emits_histogram (cfg : Config) (w : World)
    (hhost : cfg.host ≠ "") (hport : cfg.port ≠ 0)
    (hreq : cfg.tcp_request_size_bytes ≠ 0)
    (hresp : cfg.tcp_response_size_bytes ≠ 0)
    (hout : (timeout_command w.spawn w.elapsed cfg.timeout w.fuel).2
      = some (.ok "TCP,667.240,785,970")) :
    check cfg w = some ⟨none, [],
      [⟨"mysql.net.tcp_rt_latency", 667.240, "histogram", cfg.tags⟩],
      true⟩ := by
  have hval : (667.240 : ℚ) = mkRat 66724 100 := by
    rw [Rat.mkRat_eq_div]
    norm_num
  have hup : unpack_rows (csv_rows "TCP,667.240,785,970") none
      = .ok ("TCP".data, "667.240".data, "785".data, "970".data) := by
    decide
  have hpf : pyFloatOfChars "667.240".data = some (mkRat 66724 100) := by
    decide
  have hcm : collect_metrics cfg.host cfg.timeout cfg.tags w
      = some (none, [],
          [⟨"mysql.net.tcp_rt_latency", mkRat 66724 100, "histogram", cfg.tags⟩]) := by
    unfold collect_metrics
    rw [hout]
    simp [hup, hpf]
  unfold check
  rw [if_neg (by simp [hhost, hport, hreq, hresp]), hcm, hval]

/-- C4 witness: a process that exits immediately printing the sample
line. -/
theorem completed_emits_histogram_witness :
    check ⟨"h", 12865, 512, 256, 5, ["a:b"]⟩
        ⟨.ok ⟨some 0, "TCP,667.240,785,970"⟩, fun i => (i : Int), 3⟩
      = some ⟨none, [],
          [⟨"mysql.net.tcp_rt_latency", 667.240, "histogram", ["a:b"]⟩],
          true⟩ :=
  completed_emits_histogram ⟨"h", 12865, 512, 256, 5, ["a:b"]⟩
    ⟨.ok ⟨some 0, "TCP,667.240,785,970"⟩, fun i => (i : Int), 3⟩
    (by decide) (by decide) (by decide) (by decide) (by decide)

/-- C8: `check(instance)` raises the configuration error — before any
process is spawned and with no metric or event emitted — exactly when the
host is empty or the port, request size or response size is zero; with a
valid configuration that error is never raised and the spawn step is
reached. -/
theorem config_gate_iff (cfg : Config) (w : World) :
    ((cfg.host = "" ∨ cfg.port = 0 ∨ cfg.tcp_request_size_bytes = 0 ∨
        cfg.tcp_response_size_bytes = 0) →
      check cfg w = some ⟨some (.exn configMsg), [], [], false⟩) ∧
    (¬ (cfg.host = "" ∨ cfg.port = 0 ∨ cfg.tcp_request_size_bytes = 0 ∨
        cfg.tcp_response_size_bytes = 0) →
      ∀ r, check cfg w = some r →
        r.raised ≠ some (.exn configMsg) ∧ r.spawned = true) := by
  constructor
  · intro hbad
    simp [check, hbad]
  · intro hgood r hr
    unfold check at hr
    rw [if_neg hgood] at hr
    cases hcm : collect_metrics cfg.host cfg.timeout cfg.tags w with
    | none =>
      rw [hcm] at hr
      simp at hr
    | some x =>
      obtain ⟨x1, x2, x3⟩ := x
      rw [hcm] at hr
      simp at hr
      subst hr
      exact ⟨collect_metrics_no_config_exn _ _ _ _ _ hcm configMsg, rfl⟩

/-- C8 witness: the empty-host configuration aborts before spawning, with
no event and no metric. -/
theorem config_gate_iff_witness :
    check ⟨"", 12865, 512, 256, 5, []⟩
        ⟨.ok ⟨some 0, "x"⟩, fun i => (i : Int), 3⟩
      = some ⟨some (.exn configMsg), [], [], false⟩ :=
  (config_gate_iff ⟨"", 12865, 512, 256, 5, []⟩
    ⟨.ok ⟨some 0, "x"⟩, fun i => (i : Int), 3⟩).1 (by decide)

/-- C10: with a valid configuration, when the external command completes
normally but its captured stdout yields no CSV row or a row whose field
count is not exactly 4, the unpack exception propagates out of `check`
unhandled, with no event and no metric emitted: only the RuntimeError and
timeout paths are converted into events, never parse failures. -/
theorem parse_failure_propagates (cfg : Config) (w : World) (out : String)
    (e : PyExn)
    (hhost : cfg.host ≠ "") (hport : cfg.port ≠ 0)
    (hreq : cfg.tcp_request_size_bytes ≠ 0)
    (hresp : cfg.tcp_response_size_bytes ≠ 0)
    (hout : (timeout_command w.spawn w.elapsed cfg.timeout w.fuel).2
      = some (.ok out))
    (hparse : unpack_rows (csv_rows out) none = .error e) :
    check cfg w = some ⟨some e, [], [], true⟩ := by
  have hcm : collect_metrics cfg.host cfg.timeout cfg.tags w
      = some (some e, [], []) := by
    unfold collect_metrics
    rw [hout]
    simp [hparse]
  unfold check
  rw [if_neg (by simp [hhost, hport, hreq, hresp]), hcm]

/-- C10 witness: a command that exits immediately with empty stdout makes
the unbound-local exception propagate. -/
theorem parse_failure_propagates_witness :
    check ⟨"h", 12865, 512, 256, 5, []⟩
        ⟨.ok ⟨some 0, ""⟩, fun i => (i : Int), 3⟩
      = some ⟨some (.unboundLocalError "local variable referenced before assignment"),
          [], [], true⟩ :=
  parse_failure_propagates ⟨"h", 12865, 512, 256, 5, []⟩
    ⟨.ok ⟨some 0, ""⟩, fun i => (i : Int), 3⟩ "" _
    (by decide) (by decide) (by decide) (by decide) (by decide) (by decide)

end Checks.TCPRoundtripLatencyCheck
